import Mathlib

/-!
Shallow embedding of the Charger Telemetry and Control Synchronization Engine
of the ChargeAmps Homey app (HALO, LUNA and AURA device variants), together
with theorems checking the natural-language specification against the code.

The embedded pieces are:
  * the per-port connection-state machine of `getCAdata`
    (HALO: src/unnamed/part_003 lines 792-856, LUNA: src/drivers/luna/device.js
    lines 689-749, AURA port 1: src/drivers/aura/device.js lines 1768-1863);
  * the consumption accounting of `getChargingInfo`
    (HALO: part_003 lines 877-975, LUNA: luna/device.js lines 782-852,
    AURA: aura/device.js lines 2016-2114);
  * the command dispatch `setChargerSettings` / `setCharger1Settings`
    (part_003 lines 630-665, luna/device.js lines 541-578,
    aura/device.js lines 1564-1605);
  * the login paths (halo/driver.js `getChargeAmpsToken` lines 81-106 and
    the devices' `loginCA`, e.g. part_003 lines 543-564);
  * the adaptive polling loop `getCAdataLoop`
    (part_003 lines 728-750, luna/device.js lines 623-647,
    aura/device.js lines 1703-1726).

Vendor statuses and capability values are kept as the strings the code
compares; kWh quantities are rationals; a JavaScript `null` / `undefined`
is an `Option.none`; the 2-decimal display formatting (`toFixed(2)`) is
abstracted to the underlying numeric value.
-/

namespace ChargeAmps

/-! ## Connection-state machine (`getCAdata`) -/

/-- One run of the HALO per-port connection-state logic
(src/unnamed/part_003, lines 792-856).  Input: the stored
`haloCarConnected` capability value and the raw vendor `status`.
Output: the final capability value and the flow cards triggered, in order.
The code first normalizes a stored `Disconnected` to `Available`, then runs
the charging-completed branch (which also reassigns `originalCarConnected`
to `Connected`), then the generic status-change switch. -/
def haloStatusStep (cap0 status : String) : String × List String :=
  let original := if cap0 = "Disconnected" then "Available" else cap0
  let afterC : String × String × List String :=
    if original = "Charging" ∧ status = "Connected" then
      ("Connected", "Connected", ["halo-chargerChargingCompleted"])
    else
      (original, cap0, [])
  let original1 := afterC.1
  let cap1 := afterC.2.1
  let evs := afterC.2.2
  if status = original1 then
    (cap1, evs)
  else
    let step : String × List String :=
      match status with
      | "Available" => ("Disconnected", ["halo-chargerDisconnected"])
      | "Connected" => ("Connected", ["halo-chargerConnected"])
      | "Charging" => ("Charging", ["halo-chargerCharging"])
      | s => (s, [])
    (step.1, evs ++ step.2)

/-- One run of the LUNA per-port connection-state logic
(src/drivers/luna/device.js, lines 689-749).  Identical to the HALO logic
except for the flow-card names and the default arm of the switch, which maps
an unrecognized raw status to the literal `Unknown` instead of keeping it. -/
def lunaStatusStep (cap0 status : String) : String × List String :=
  let original := if cap0 = "Disconnected" then "Available" else cap0
  let afterC : String × String × List String :=
    if original = "Charging" ∧ status = "Connected" then
      ("Connected", "Connected", ["luna-chargerChargingCompleted"])
    else
      (original, cap0, [])
  let original1 := afterC.1
  let cap1 := afterC.2.1
  let evs := afterC.2.2
  if status = original1 then
    (cap1, evs)
  else
    let step : String × List String :=
      match status with
      | "Available" => ("Disconnected", ["luna-chargerDisconnected"])
      | "Connected" => ("Connected", ["luna-chargerConnected"])
      | "Charging" => ("Charging", ["luna-chargerCharging"])
      | _ => ("Unknown", [])
    (step.1, evs ++ step.2)

/-- One run of the AURA port-1 connection-state logic
(src/drivers/aura/device.js, lines 1768-1863).  Differences from HALO:
a stored `Unknown` is also normalized to `Available`; there are three
charging-completed branches (raw `Connected`, `SuspendedEV`, `Finishing`),
each of which writes the capability and fires the completed flow card but
does NOT reassign `originalCarConnected`; the generic switch then still
compares the raw status against the unmodified `originalCarConnected`. -/
def auraStatusStep (cap0 status : String) : String × List String :=
  let original0 := if cap0 = "Disconnected" then "Available" else cap0
  let original := if original0 = "Unknown" then "Available" else original0
  let afterC : String × List String :=
    if original = "Charging" ∧ status = "Connected" then
      ("Connected", ["aura1-chargerChargingCompleted"])
    else if original = "Charging" ∧ status = "SuspendedEV" then
      ("Connected", ["aura1-chargerChargingCompleted"])
    else if original = "Charging" ∧ status = "Finishing" then
      ("Finishing", ["aura1-chargerChargingCompleted"])
    else
      (cap0, [])
  if status = original then
    afterC
  else
    let step : String × List String :=
      match status with
      | "Available" => ("Disconnected", ["aura1-chargerDisconnected"])
      | "Connected" => ("Connected", ["aura1-chargerConnected"])
      | "Charging" => ("Charging", ["aura1-chargerCharging"])
      | s => (s, [])
    (step.1, afterC.2 ++ step.2)

/-! ## Consumption accounting (`getChargingInfo`) -/

/-- One row of the charging-sessions response: its `totalConsumptionKwh`
field, `none` when the row is absent or the field is `null`. -/
abbrev SessionRow := Option ℚ

/-- The `totalConsumptionKwh` of row `i` of the sessions response, when the
row exists and the field is non-null (the guard
`response.data[i] && response.data[i].totalConsumptionKwh != null`). -/
def rowValue (rows : List SessionRow) (i : Nat) : Option ℚ :=
  match rows.get? i with
  | some (some v) => some v
  | _ => none

/-- Per-port consumption state as read and written by the HALO and AURA
`getChargingInfo` (variables of the device object plus the capabilities it
touches).  `meter` is the running meter capability (`meter_halo` /
`meter_aura1`), `none` while the capability is still null.
`chargingConsumptionKwh` is `none` while the device variable is still
undefined (never computed). -/
structure PortMeterState where
  nowConsumptionKwh : ℚ
  previousConsumptionKwh : ℚ
  chargingConsumptionKwh : Option ℚ
  meter : Option ℚ
  measure : ℚ
  lastCharged : ℚ
  nowCharged : ℚ
  deriving Repr, DecidableEq

/-- The HALO `getChargingInfo` (src/unnamed/part_003, lines 877-975) run on
one poll cycle, given the `onoff` capability, the port state and the rows of
a successful charging-sessions response.  Returns the new state and whether
the charging-sessions request was issued at all: when `onoff` is false the
function returns before the request (lines 879-883).  The meter capability
is read first (null coerced to 0); in the `nowConsumptionKwh == 0` branch
the meter capability is not written, `previousConsumptionKwh` becomes 0 and
`measure_halo` becomes 0; otherwise the delta is added to the meter,
`previousConsumptionKwh` becomes the current counter and `measure_halo`
becomes the charging-power estimate (0 while still undefined). -/
def haloGetChargingInfo (onoff : Bool) (s : PortMeterState) (rows : List SessionRow) :
    PortMeterState × Bool :=
  if !onoff then (s, false)
  else
    let meter0 : ℚ := s.meter.getD 0
    if s.nowConsumptionKwh = 0 then
      ({ s with
          previousConsumptionKwh := 0
          lastCharged := (rowValue rows 0).getD 0
          measure := 0
          nowCharged := s.nowConsumptionKwh }, true)
    else
      let delta := s.nowConsumptionKwh - s.previousConsumptionKwh
      ({ s with
          previousConsumptionKwh := s.nowConsumptionKwh
          meter := some (meter0 + delta)
          measure := s.chargingConsumptionKwh.getD 0
          lastCharged := (rowValue rows 1).getD 0
          nowCharged := s.nowConsumptionKwh }, true)

/-- The AURA port-level `getChargingInfo` / `getChargingInfo2`
(src/drivers/aura/device.js, lines 2016-2114 and 2128-2223), given the
port's onoff capability, whether `portAccess` covers this port, the port
state and the session rows.  Unlike HALO, the port-off branch (lines
2022-2027) and the access-denied branch (lines 2108-2111) do not leave the
state alone: they write 0 to `LastCharged`, `NowCharged`, the measure AND
the running meter capability, without issuing the sessions request.
The main branch is the same accounting as HALO. -/
def auraGetChargingInfo (onoff portAllowed : Bool) (s : PortMeterState)
    (rows : List SessionRow) : PortMeterState × Bool :=
  if !onoff then
    ({ s with lastCharged := 0, nowCharged := 0, measure := 0, meter := some 0 }, false)
  else if portAllowed then
    let meter0 : ℚ := s.meter.getD 0
    if s.nowConsumptionKwh = 0 then
      ({ s with
          previousConsumptionKwh := 0
          lastCharged := (rowValue rows 0).getD 0
          measure := 0
          nowCharged := s.nowConsumptionKwh }, true)
    else
      let delta := s.nowConsumptionKwh - s.previousConsumptionKwh
      ({ s with
          previousConsumptionKwh := s.nowConsumptionKwh
          meter := some (meter0 + delta)
          measure := s.chargingConsumptionKwh.getD 0
          lastCharged := (rowValue rows 1).getD 0
          nowCharged := s.nowConsumptionKwh }, true)
  else
    ({ s with lastCharged := 0, nowCharged := 0, measure := 0, meter := some 0 }, false)

/-- Consumption state of the LUNA variant.  The capabilities written by
`getChargingInfo` are kept as `Option` because the LUNA code accesses the
session rows without the existence guard the other variants have
(`response.data[0].totalConsumptionKwh.toFixed(2)`, lines 812 and 826 of
src/drivers/luna/device.js): a missing row throws a TypeError that the
surrounding catch swallows, leaving the later capability writes unexecuted. -/
structure LunaState where
  nowConsumptionKwh : ℚ
  previousConsumptionKwh : ℚ
  chargingConsumptionKwh : Option ℚ
  meterLuna : Option ℚ
  measureLuna : Option ℚ
  lastCharged : Option ℚ
  nowCharged : Option ℚ
  deriving Repr, DecidableEq

/-- The LUNA `getChargingInfo` (src/drivers/luna/device.js, lines 782-852).
Same accounting as HALO, but the row accesses are unguarded: in the
`nowConsumptionKwh == 0` branch a missing first row aborts after
`previousConsumptionKwh := 0`; in the active branch a missing second row
aborts after `previousConsumptionKwh := nowConsumptionKwh` and BEFORE the
`measure_luna` / `meter_luna` capability writes. -/
def lunaGetChargingInfo (onoff : Bool) (s : LunaState) (rows : List SessionRow) :
    LunaState × Bool :=
  if !onoff then (s, false)
  else
    let meter0 : ℚ := s.meterLuna.getD 0
    if s.nowConsumptionKwh = 0 then
      let s1 := { s with previousConsumptionKwh := 0 }
      match rowValue rows 0 with
      | none => (s1, true)
      | some v =>
          ({ s1 with
              measureLuna := some 0
              lastCharged := some v
              nowCharged := some s.nowConsumptionKwh }, true)
    else
      let delta := s.nowConsumptionKwh - s.previousConsumptionKwh
      let s1 := { s with previousConsumptionKwh := s.nowConsumptionKwh }
      match rowValue rows 1 with
      | none => (s1, true)
      | some v =>
          ({ s1 with
              measureLuna := s.chargingConsumptionKwh
              meterLuna := some (meter0 + delta)
              lastCharged := some v
              nowCharged := some s.nowConsumptionKwh }, true)

/-! ## Command dispatch (`setChargerSettings`) -/

/-- Remote calls and waits issued by the charger-settings command, in
program order.  `remoteStopRequest` stands for the PUT on the connector's
`remotestop` endpoint (issuing the request, whether or not it succeeds);
`settleDelayMs` for the in-process wait; `putSettings current rfid mode
cableLock` for the PUT on the connector's `settings` endpoint with the full
body tuple. -/
inductive ChargerCmd where
  | remoteStopRequest : ChargerCmd
  | settleDelayMs : Nat → ChargerCmd
  | putSettings : ℚ → Bool → Nat → Bool → ChargerCmd
  deriving Repr, DecidableEq

/-- The LUNA `setChargerSettings` (src/drivers/luna/device.js, lines
541-578), as the list of calls and waits it issues.  `remoteStopFails`
injects the failure of the remotestop request: the 2-second delay sits
inside the same try block after the awaited PUT, so a failing remotestop
skips it, while the settings PUT below is issued either way.  The AURA
`setCharger1Settings` / `setCharger2Settings` (aura/device.js lines
1564-1657) issue exactly the same sequence when `portAccess` allows the
port. -/
def lunaSetChargerSettings (userCurrent : ℚ) (userRFID : Bool) (userMode : Nat)
    (userCableLock : Bool) (remoteStopFails : Bool) : List ChargerCmd :=
  (if userMode = 0 then
    if remoteStopFails then
      [ChargerCmd.remoteStopRequest]
    else
      [ChargerCmd.remoteStopRequest, ChargerCmd.settleDelayMs 2000]
  else []) ++ [ChargerCmd.putSettings userCurrent userRFID userMode userCableLock]

/-- The HALO `setChargerSettings` (src/unnamed/part_003, lines 630-665):
same protocol, but the variant has no cable lock and the settings body
carries `cableLock: false`. -/
def haloSetChargerSettings (userCurrent : ℚ) (userRFID : Bool) (userMode : Nat)
    (remoteStopFails : Bool) : List ChargerCmd :=
  (if userMode = 0 then
    if remoteStopFails then
      [ChargerCmd.remoteStopRequest]
    else
      [ChargerCmd.remoteStopRequest, ChargerCmd.settleDelayMs 2000]
  else []) ++ [ChargerCmd.putSettings userCurrent userRFID userMode false]

/-! ## Login paths -/

/-- JavaScript falsiness of a credential read from the settings store:
missing (`none`) or the empty string. -/
def credentialFalsy : Option String → Bool
  | none => true
  | some s => s = ""

/-- Observable steps of a login attempt, in order. -/
inductive LoginStep where
  | credentialsError : LoginStep
  | loginRequest : LoginStep
  deriving Repr, DecidableEq

/-- The driver-side pairing login `getChargeAmpsToken`
(src/drivers/halo/driver.js, lines 81-106): it checks
`!email || !password || !apiKey` and throws the credentials-missing error
before any network call; otherwise it posts to `/auth/login`. -/
def driverGetChargeAmpsToken (email password apiKey : Option String) : List LoginStep :=
  if credentialFalsy email || credentialFalsy password || credentialFalsy apiKey then
    [LoginStep.credentialsError]
  else
    [LoginStep.loginRequest]

/-- The device-side login `loginCA` (src/unnamed/part_003 lines 543-564,
src/drivers/luna/device.js lines 451-472, src/drivers/aura/device.js lines
1475-1499), called by every device `onInit` with the raw settings values:
it posts to `/auth/login` unconditionally, with no credential check. -/
def deviceLoginCA (_email _password _apiKey : Option String) : List LoginStep :=
  [LoginStep.loginRequest]

/-! ## Adaptive polling loop (`getCAdataLoop`) -/

/-- Observable steps of one firing of the poll timer: the status GET that
opens the `getCAdata` pipeline, and the `setTimeout` arming the next firing
(in whole seconds). -/
inductive PollStep where
  | statusRequest : PollStep
  | schedule : ℤ → PollStep
  deriving Repr, DecidableEq

/-- JavaScript `Math.round` on the (non-negative) values involved: round
half up. -/
def jsRound (q : ℚ) : ℤ := ⌊q + 1 / 2⌋

/-- The adaptive next delay of `getCAdataLoop`:
`Math.round(Math.max(minTimeout, Math.min(maxTimeout, minTimeout + elapsed * 2 / 3)))`
(src/drivers/aura/device.js line 1715, src/unnamed/part_003 line 739,
src/drivers/luna/device.js line 635). -/
def nextTimeout (minT maxT elapsed : ℚ) : ℤ :=
  jsRound (max minT (min maxT (minT + elapsed * 2 / 3)))

/-- One firing of the `getCAdataLoop` timer, parametrized by the variant's
`minTimeout` / `maxTimeout` and fixed retry delay (HALO: 19/90/19,
LUNA: 19/60/19, AURA: 14/60/15).  If the busy flag `isGettingData` is set,
the loop only rearms the timer with the fixed retry delay and `getCAdata`
is not entered, so no status request is issued; otherwise the pipeline runs
(opening with the status GET) and the next firing is scheduled with the
adaptive delay on success or the fixed retry delay on error. -/
def caDataLoopStep (minT maxT : ℚ) (retrySecs : ℤ) (isGettingData pipelineFails : Bool)
    (elapsed : ℚ) : List PollStep :=
  if isGettingData then
    [PollStep.schedule retrySecs]
  else if pipelineFails then
    [PollStep.statusRequest, PollStep.schedule retrySecs]
  else
    [PollStep.statusRequest, PollStep.schedule (nextTimeout minT maxT elapsed)]

/-! ## Claim C1: delta accounting of the active-session branch -/

/-- C1 (counterexample).  On the LUNA variant the claim fails: with the
session counter active and above the stored previous value (5 > 0) but no
second row in the sessions response, the unguarded row access throws before
the capability writes, so the running meter stays at 10 instead of becoming
10 + (5 - 0) = 15 — while `previousConsumptionKwh` has already been set
to 5. -/
theorem luna_second_row_missing_meter_not_written :
    (lunaGetChargingInfo true
        { nowConsumptionKwh := 5, previousConsumptionKwh := 0,
          chargingConsumptionKwh := none, meterLuna := some 10,
          measureLuna := none, lastCharged := none, nowCharged := none }
        []).1.meterLuna = some 10
    ∧ (lunaGetChargingInfo true
        { nowConsumptionKwh := 5, previousConsumptionKwh := 0,
          chargingConsumptionKwh := none, meterLuna := some 10,
          measureLuna := none, lastCharged := none, nowCharged := none }
        []).1.previousConsumptionKwh = 5
    ∧ (10 : ℚ) ≠ 10 + (5 - 0) := by
  refine ⟨rfl, rfl, by norm_num⟩

/-- C1 (amended).  When the session counter is active
(`nowConsumptionKwh ≠ 0`) and exceeds the stored previous value, the
consumption update sets the running meter to its prior (null coerced to 0)
value plus the delta and stores the counter as the new previous value — on
the HALO variant and on the AURA variant (port on and port access granted)
unconditionally, and on the LUNA variant only when the sessions response
carries a second row with a non-null total, since otherwise the unguarded
row access aborts the update before the meter write. -/
theorem consumption_delta_updates_meter :
    (∀ (s : PortMeterState) (rows : List SessionRow),
        s.nowConsumptionKwh ≠ 0 →
        s.previousConsumptionKwh < s.nowConsumptionKwh →
        (haloGetChargingInfo true s rows).1.meter
            = some (s.meter.getD 0 + (s.nowConsumptionKwh - s.previousConsumptionKwh))
          ∧ (haloGetChargingInfo true s rows).1.previousConsumptionKwh
            = s.nowConsumptionKwh)
    ∧ (∀ (s : PortMeterState) (rows : List SessionRow),
        s.nowConsumptionKwh ≠ 0 →
        s.previousConsumptionKwh < s.nowConsumptionKwh →
        (auraGetChargingInfo true true s rows).1.meter
            = some (s.meter.getD 0 + (s.nowConsumptionKwh - s.previousConsumptionKwh))
          ∧ (auraGetChargingInfo true true s rows).1.previousConsumptionKwh
            = s.nowConsumptionKwh)
    ∧ (∀ (t : LunaState) (rows : List SessionRow) (v : ℚ),
        rowValue rows 1 = some v →
        t.nowConsumptionKwh ≠ 0 →
        t.previousConsumptionKwh < t.nowConsumptionKwh →
        (lunaGetChargingInfo true t rows).1.meterLuna
            = some (t.meterLuna.getD 0 + (t.nowConsumptionKwh - t.previousConsumptionKwh))
          ∧ (lunaGetChargingInfo true t rows).1.previousConsumptionKwh
            = t.nowConsumptionKwh) := by
  refine ⟨fun s rows h _ => ?_, fun s rows h _ => ?_, fun t rows v hv h _ => ?_⟩
  · simp [haloGetChargingInfo, h]
  · simp [auraGetChargingInfo, h]
  · simp [lunaGetChargingInfo, h, hv]

/-- C1 (witness): the amended theorem applied to concrete states with an
active counter 3 above a stored previous value 1. -/
theorem consumption_delta_updates_meter_witness :
    ((haloGetChargingInfo true
        { nowConsumptionKwh := 3, previousConsumptionKwh := 1,
          chargingConsumptionKwh := some 2, meter := some 10, measure := 0,
          lastCharged := 0, nowCharged := 0 } []).1.meter = some 12
      ∧ (haloGetChargingInfo true
        { nowConsumptionKwh := 3, previousConsumptionKwh := 1,
          chargingConsumptionKwh := some 2, meter := some 10, measure := 0,
          lastCharged := 0, nowCharged := 0 } []).1.previousConsumptionKwh = 3)
    ∧ ((auraGetChargingInfo true true
        { nowConsumptionKwh := 3, previousConsumptionKwh := 1,
          chargingConsumptionKwh := some 2, meter := some 10, measure := 0,
          lastCharged := 0, nowCharged := 0 } []).1.meter = some 12)
    ∧ ((lunaGetChargingInfo true
        { nowConsumptionKwh := 3, previousConsumptionKwh := 1,
          chargingConsumptionKwh := some 2, meterLuna := some 10,
          measureLuna := none, lastCharged := none, nowCharged := none }
        [some 7, some 4]).1.meterLuna = some 12) := by
  have h1 := consumption_delta_updates_meter.1
    { nowConsumptionKwh := 3, previousConsumptionKwh := 1,
      chargingConsumptionKwh := some 2, meter := some 10, measure := 0,
      lastCharged := 0, nowCharged := 0 } [] (by norm_num) (by norm_num)
  have h2 := consumption_delta_updates_meter.2.1
    { nowConsumptionKwh := 3, previousConsumptionKwh := 1,
      chargingConsumptionKwh := some 2, meter := some 10, measure := 0,
      lastCharged := 0, nowCharged := 0 } [] (by norm_num) (by norm_num)
  have h3 := consumption_delta_updates_meter.2.2
    { nowConsumptionKwh := 3, previousConsumptionKwh := 1,
      chargingConsumptionKwh := some 2, meterLuna := some 10,
      measureLuna := none, lastCharged := none, nowCharged := none }
    [some 7, some 4] 4 rfl (by norm_num) (by norm_num)
  refine ⟨⟨?_, h1.2⟩, ?_, ?_⟩
  · rw [h1.1]; norm_num
  · rw [h2.1]; norm_num
  · rw [h3.1]; norm_num

/-! ## Claim C2: frame of the no-session branch -/

/-- C2.  When the session counter reports 0 (no active session) and the
consumption stage runs (port on, and on AURA port access granted), the
update sets `previousConsumptionKwh` to 0, the live measure capability to 0
and the last-charged display to the first session row's total (0 when
absent), and leaves the running meter capability untouched, on the HALO and
AURA variants the claim cites. -/
theorem consumption_zero_frame :
    (∀ (s : PortMeterState) (rows : List SessionRow),
        s.nowConsumptionKwh = 0 →
        (haloGetChargingInfo true s rows).1.previousConsumptionKwh = 0
          ∧ (haloGetChargingInfo true s rows).1.measure = 0
          ∧ (haloGetChargingInfo true s rows).1.meter = s.meter
          ∧ (haloGetChargingInfo true s rows).1.lastCharged = (rowValue rows 0).getD 0)
    ∧ (∀ (s : PortMeterState) (rows : List SessionRow),
        s.nowConsumptionKwh = 0 →
        (auraGetChargingInfo true true s rows).1.previousConsumptionKwh = 0
          ∧ (auraGetChargingInfo true true s rows).1.measure = 0
          ∧ (auraGetChargingInfo true true s rows).1.meter = s.meter) := by
  refine ⟨fun s rows h => ?_, fun s rows h => ?_⟩
  · simp [haloGetChargingInfo, h]
  · simp [auraGetChargingInfo, h]

/-- C2 (witness): the zero-branch frame at a concrete state with counter 0
and meter 10. -/
theorem consumption_zero_frame_witness :
    (haloGetChargingInfo true
        { nowConsumptionKwh := 0, previousConsumptionKwh := 4,
          chargingConsumptionKwh := some 2, meter := some 10, measure := 7,
          lastCharged := 0, nowCharged := 0 } [some 6]).1.previousConsumptionKwh = 0
    ∧ (haloGetChargingInfo true
        { nowConsumptionKwh := 0, previousConsumptionKwh := 4,
          chargingConsumptionKwh := some 2, meter := some 10, measure := 7,
          lastCharged := 0, nowCharged := 0 } [some 6]).1.measure = 0
    ∧ (haloGetChargingInfo true
        { nowConsumptionKwh := 0, previousConsumptionKwh := 4,
          chargingConsumptionKwh := some 2, meter := some 10, measure := 7,
          lastCharged := 0, nowCharged := 0 } [some 6]).1.meter = some 10 := by
  have h := consumption_zero_frame.1
    { nowConsumptionKwh := 0, previousConsumptionKwh := 4,
      chargingConsumptionKwh := some 2, meter := some 10, measure := 7,
      lastCharged := 0, nowCharged := 0 } [some 6] rfl
  exact ⟨h.1, h.2.1, h.2.2.1⟩

/-! ## Claim C3: meter monotonicity -/

/-- C3 (counterexample).  The claim fails on the AURA variant: when the
port's onoff capability is false, the poll cycle's charging-info stage
writes 0 to the running meter capability even though its current value is
10, a strictly smaller value, with no vendor involvement at all. -/
theorem aura_port_off_resets_meter :
    (auraGetChargingInfo false true
        { nowConsumptionKwh := 0, previousConsumptionKwh := 0,
          chargingConsumptionKwh := none, meter := some 10, measure := 0,
          lastCharged := 0, nowCharged := 0 } []).1.meter = some 0
    ∧ ¬ ((10 : ℚ) ≤ 0) := by
  refine ⟨rfl, by norm_num⟩

/-- C3 (amended).  The observed running meter value is non-decreasing
across a consumption update provided every nonzero counter sample is at
least the stored previous value (each new session is first observed at 0 or
above the previous session's last sample) — on HALO and LUNA in every case,
and on AURA only while the port is on and its port access is granted, since
the AURA off- and access-denied branches reset the meter capability to 0. -/
theorem meter_nondecreasing_conditions :
    (∀ (b : Bool) (s : PortMeterState) (rows : List SessionRow),
        (s.nowConsumptionKwh = 0 ∨ s.previousConsumptionKwh ≤ s.nowConsumptionKwh) →
        s.meter.getD 0 ≤ (haloGetChargingInfo b s rows).1.meter.getD 0)
    ∧ (∀ (s : PortMeterState) (rows : List SessionRow),
        (s.nowConsumptionKwh = 0 ∨ s.previousConsumptionKwh ≤ s.nowConsumptionKwh) →
        s.meter.getD 0 ≤ (auraGetChargingInfo true true s rows).1.meter.getD 0)
    ∧ (∀ (b : Bool) (t : LunaState) (rows : List SessionRow),
        (t.nowConsumptionKwh = 0 ∨ t.previousConsumptionKwh ≤ t.nowConsumptionKwh) →
        t.meterLuna.getD 0 ≤ (lunaGetChargingInfo b t rows).1.meterLuna.getD 0) := by
  refine ⟨fun b s rows h => ?_, fun s rows h => ?_, fun b t rows h => ?_⟩
  · cases b with
    | false => simp [haloGetChargingInfo]
    | true =>
        by_cases hz : s.nowConsumptionKwh = 0
        · simp [haloGetChargingInfo, hz]
        · have hle := h.resolve_left hz
          simp only [haloGetChargingInfo, Bool.not_true, Bool.false_eq_true, if_false,
            if_neg hz, Option.getD_some]
          linarith
  · by_cases hz : s.nowConsumptionKwh = 0
    · simp [auraGetChargingInfo, hz]
    · have hle := h.resolve_left hz
      simp only [auraGetChargingInfo, Bool.not_true, Bool.false_eq_true, if_false,
        if_true, if_neg hz, Option.getD_some]
      linarith
  · cases b with
    | false => simp [lunaGetChargingInfo]
    | true =>
        by_cases hz : t.nowConsumptionKwh = 0
        · cases hrv : rowValue rows 0 <;> simp [lunaGetChargingInfo, hz, hrv]
        · have hle := h.resolve_left hz
          cases hrv : rowValue rows 1 with
          | none => simp [lunaGetChargingInfo, hz, hrv]
          | some v =>
              simp only [lunaGetChargingInfo, Bool.not_true, Bool.false_eq_true, if_false,
                if_neg hz, hrv, Option.getD_some]
              linarith

/-- C3 (witness): the amended monotonicity at a concrete HALO state with an
active counter above the stored previous value, an AURA state with the port
on, and a LUNA state with no session. -/
theorem meter_nondecreasing_conditions_witness :
    ((10 : ℚ) ≤ ((haloGetChargingInfo true
        { nowConsumptionKwh := 3, previousConsumptionKwh := 1,
          chargingConsumptionKwh := some 2, meter := some 10, measure := 0,
          lastCharged := 0, nowCharged := 0 } []).1.meter.getD 0))
    ∧ ((10 : ℚ) ≤ ((auraGetChargingInfo true true
        { nowConsumptionKwh := 3, previousConsumptionKwh := 1,
          chargingConsumptionKwh := some 2, meter := some 10, measure := 0,
          lastCharged := 0, nowCharged := 0 } []).1.meter.getD 0))
    ∧ ((10 : ℚ) ≤ ((lunaGetChargingInfo true
        { nowConsumptionKwh := 0, previousConsumptionKwh := 1,
          chargingConsumptionKwh := none, meterLuna := some 10,
          measureLuna := none, lastCharged := none, nowCharged := none }
        []).1.meterLuna.getD 0)) := by
  have h1 := meter_nondecreasing_conditions.1 true
    { nowConsumptionKwh := 3, previousConsumptionKwh := 1,
      chargingConsumptionKwh := some 2, meter := some 10, measure := 0,
      lastCharged := 0, nowCharged := 0 } [] (Or.inr (by norm_num))
  have h2 := meter_nondecreasing_conditions.2.1
    { nowConsumptionKwh := 3, previousConsumptionKwh := 1,
      chargingConsumptionKwh := some 2, meter := some 10, measure := 0,
      lastCharged := 0, nowCharged := 0 } [] (Or.inr (by norm_num))
  have h3 := meter_nondecreasing_conditions.2.2 true
    { nowConsumptionKwh := 0, previousConsumptionKwh := 1,
      chargingConsumptionKwh := none, meterLuna := some 10,
      measureLuna := none, lastCharged := none, nowCharged := none }
    [] (Or.inl rfl)
  exact ⟨h1, h2, h3⟩

/-! ## Claim C4: Charging to Connected transition -/

/-- C4 (counterexample).  On the AURA variant (a cited source of the claim)
a port previously exposed as `Charging` with raw status `Connected` fires
TWO flow cards in the same cycle: `chargingCompleted` and then the generic
`chargerConnected`, because the charging-completed branch does not update
`originalCarConnected` before the generic switch compares against it. -/
theorem aura_charging_to_connected_fires_two_events :
    auraStatusStep "Charging" "Connected"
        = ("Connected", ["aura1-chargerChargingCompleted", "aura1-chargerConnected"])
    ∧ "aura1-chargerConnected" ∈ (auraStatusStep "Charging" "Connected").2 := by
  exact ⟨rfl, by decide⟩

/-- C4 (amended).  With previous exposed state `Charging` and raw status
`Connected`, the new exposed state is `Connected` on every variant; the
HALO and LUNA variants emit exactly one event, `chargingCompleted`, while
the AURA variant emits both `chargingCompleted` and the generic
`chargerConnected` in the same cycle. -/
theorem charging_completed_events_by_variant :
    haloStatusStep "Charging" "Connected"
        = ("Connected", ["halo-chargerChargingCompleted"])
    ∧ lunaStatusStep "Charging" "Connected"
        = ("Connected", ["luna-chargerChargingCompleted"])
    ∧ auraStatusStep "Charging" "Connected"
        = ("Connected", ["aura1-chargerChargingCompleted", "aura1-chargerConnected"]) := by
  exact ⟨rfl, rfl, rfl⟩

/-! ## Claim C5: Charging to SuspendedEV transition -/

/-- C5 (counterexample).  On the HALO variant (a cited source) the
spec's row previous=`Charging`, raw=`SuspendedEV` produces neither the
`Connected` state nor the `chargingCompleted` event: the HALO state machine
has no SuspendedEV branch, so the generic switch's default arm stores the
raw string `SuspendedEV` verbatim and fires nothing. -/
theorem halo_suspendedev_no_completed_event :
    haloStatusStep "Charging" "SuspendedEV" = ("SuspendedEV", [])
    ∧ (haloStatusStep "Charging" "SuspendedEV").1 ≠ "Connected"
    ∧ "halo-chargerChargingCompleted" ∉ (haloStatusStep "Charging" "SuspendedEV").2 := by
  exact ⟨rfl, by decide, by decide⟩

/-- C5 (amended).  With previous exposed state `Charging` and raw status
`SuspendedEV`: HALO exposes `SuspendedEV` verbatim with no event; LUNA
exposes `Unknown` (its default arm) with no event; AURA alone fires
`chargingCompleted`, but its final exposed state is `SuspendedEV`, because
the generic switch's default arm overwrites the `Connected` value the
completed branch had just written. -/
theorem suspendedev_transition_by_variant :
    haloStatusStep "Charging" "SuspendedEV" = ("SuspendedEV", [])
    ∧ lunaStatusStep "Charging" "SuspendedEV" = ("Unknown", [])
    ∧ auraStatusStep "Charging" "SuspendedEV"
        = ("SuspendedEV", ["aura1-chargerChargingCompleted"]) := by
  exact ⟨rfl, rfl, rfl⟩

/-! ## Claim C6: stop-before-disable protocol -/

/-- C6 (counterexample).  When the remote-stop request fails, the
2-second settle delay is skipped — it sits inside the same try block after
the awaited remotestop — so the command sequence for mode 0 with a failing
stop is remotestop directly followed by the settings PUT, with no delay
between them. -/
theorem remotestop_failure_skips_settle_delay :
    lunaSetChargerSettings 16 true 0 true true
        = [ChargerCmd.remoteStopRequest, ChargerCmd.putSettings 16 true 0 true]
    ∧ ChargerCmd.settleDelayMs 2000 ∉ lunaSetChargerSettings 16 true 0 true true := by
  exact ⟨rfl, by decide⟩

/-- C6 (amended).  For mode 0 the command issues the remote-stop request
before the connector-settings PUT and the settings PUT with the full tuple
is issued even when the remote stop fails, but the fixed 2-second settle
delay sits between them only when the remote stop succeeds; for any
mode other than 0 no remote-stop request is issued.  HALO behaves the same
with its `cableLock` fixed to false. -/
theorem stop_before_disable_protocol (c : ℚ) (r l : Bool) :
    lunaSetChargerSettings c r 0 l false
        = [ChargerCmd.remoteStopRequest, ChargerCmd.settleDelayMs 2000,
           ChargerCmd.putSettings c r 0 l]
    ∧ lunaSetChargerSettings c r 0 l true
        = [ChargerCmd.remoteStopRequest, ChargerCmd.putSettings c r 0 l]
    ∧ (∀ (m : Nat) (f : Bool), m ≠ 0 →
        lunaSetChargerSettings c r m l f = [ChargerCmd.putSettings c r m l])
    ∧ haloSetChargerSettings c r 0 false
        = [ChargerCmd.remoteStopRequest, ChargerCmd.settleDelayMs 2000,
           ChargerCmd.putSettings c r 0 false]
    ∧ haloSetChargerSettings c r 0 true
        = [ChargerCmd.remoteStopRequest, ChargerCmd.putSettings c r 0 false]
    ∧ (∀ (m : Nat) (f : Bool), m ≠ 0 →
        haloSetChargerSettings c r m f = [ChargerCmd.putSettings c r m false]) := by
  refine ⟨rfl, rfl, fun m f hm => ?_, rfl, rfl, fun m f hm => ?_⟩
  · simp [lunaSetChargerSettings, hm]
  · simp [haloSetChargerSettings, hm]

/-- C6 (witness): the protocol at current 16 A, RFID on, cable lock off,
checking the mode-1 (on) command issues only the settings PUT. -/
theorem stop_before_disable_protocol_witness :
    lunaSetChargerSettings 16 true 1 false false = [ChargerCmd.putSettings 16 true 1 false]
    ∧ haloSetChargerSettings 16 true 1 false = [ChargerCmd.putSettings 16 true 1 false] :=
  ⟨(stop_before_disable_protocol 16 true false).2.2.1 1 false (by decide),
   (stop_before_disable_protocol 16 true false).2.2.2.2.2 1 false (by decide)⟩

/-! ## Claim C7: credentials check before network -/

/-- C7 (counterexample).  The device-initialization login path (`loginCA`,
called by every device `onInit` with the raw settings values) issues the
network login request even when every credential is missing or empty: it
has no credentials check at all. -/
theorem device_login_posts_without_credentials :
    deviceLoginCA none (some "") none = [LoginStep.loginRequest]
    ∧ LoginStep.loginRequest ∈ deviceLoginCA none (some "") none
    ∧ credentialFalsy none = true ∧ credentialFalsy (some "") = true := by
  exact ⟨rfl, by decide, rfl, rfl⟩

/-- C7 (amended).  Only the driver's pairing-time login
(`getChargeAmpsToken`) fails with the credentials-missing error before any
network request when any of the three credentials is empty or missing; the
device-initialization login (`loginCA`) posts to the login endpoint
unconditionally, with no credential check. -/
theorem credentials_check_only_on_driver_path :
    (∀ (e p k : Option String),
        (credentialFalsy e || credentialFalsy p || credentialFalsy k) = true →
        driverGetChargeAmpsToken e p k = [LoginStep.credentialsError]
          ∧ LoginStep.loginRequest ∉ driverGetChargeAmpsToken e p k)
    ∧ (∀ (e p k : Option String), deviceLoginCA e p k = [LoginStep.loginRequest]) := by
  refine ⟨fun e p k h => ?_, fun e p k => rfl⟩
  constructor
  · simp [driverGetChargeAmpsToken, h]
  · simp [driverGetChargeAmpsToken, h]

/-- C7 (witness): the driver path with a missing API key throws before the
request. -/
theorem credentials_check_only_on_driver_path_witness :
    driverGetChargeAmpsToken (some "user") (some "pw") none = [LoginStep.credentialsError]
    ∧ LoginStep.loginRequest ∉ driverGetChargeAmpsToken (some "user") (some "pw") none :=
  credentials_check_only_on_driver_path.1 (some "user") (some "pw") none (by decide)

/-! ## Claim C8: adaptive polling delay -/

/-- C8.  After a successful poll cycle the next delay is
`round(max(minTimeout, min(maxTimeout, minTimeout + elapsed * 2 / 3)))`;
with the AURA bounds min=14, max=60 an elapsed time of 0 gives 14, of 30
gives 34 and of 200 gives 60 (clamped), and for any integer bounds
`minT ≤ maxT` the delay always lies within `[minT, maxT]`. -/
theorem adaptive_poll_interval :
    nextTimeout 14 60 0 = 14
    ∧ nextTimeout 14 60 30 = 34
    ∧ nextTimeout 14 60 200 = 60
    ∧ (∀ e : ℚ, caDataLoopStep 14 60 15 false false e
        = [PollStep.statusRequest, PollStep.schedule (nextTimeout 14 60 e)])
    ∧ (∀ (m M : ℤ) (e : ℚ), (m : ℚ) ≤ (M : ℚ) →
        m ≤ nextTimeout m M e ∧ nextTimeout m M e ≤ M) := by
  refine ⟨?_, ?_, ?_, fun e => rfl, fun m M e h => ?_⟩
  · rw [nextTimeout, jsRound,
      show max (14 : ℚ) (min 60 (14 + 0 * 2 / 3)) + 1 / 2 = 29 / 2 by norm_num,
      Int.floor_eq_iff]
    norm_num
  · rw [nextTimeout, jsRound,
      show max (14 : ℚ) (min 60 (14 + 30 * 2 / 3)) + 1 / 2 = 69 / 2 by norm_num,
      Int.floor_eq_iff]
    norm_num
  · rw [nextTimeout, jsRound,
      show max (14 : ℚ) (min 60 (14 + 200 * 2 / 3)) + 1 / 2 = 121 / 2 by norm_num,
      Int.floor_eq_iff]
    norm_num
  · rw [nextTimeout, jsRound]
    constructor
    · have h1 : (m : ℚ) + 1 / 2 ≤ max (m : ℚ) (min M ((m : ℚ) + e * 2 / 3)) + 1 / 2 := by
        have := le_max_left (m : ℚ) (min (M : ℚ) ((m : ℚ) + e * 2 / 3))
        linarith
      calc (m : ℤ) = ⌊(m : ℚ) + 1 / 2⌋ := by
            symm
            rw [Int.floor_eq_iff]
            constructor <;> linarith
        _ ≤ _ := Int.floor_le_floor h1
    · have h2 : max (m : ℚ) (min M ((m : ℚ) + e * 2 / 3)) + 1 / 2 ≤ (M : ℚ) + 1 / 2 := by
        have := max_le h (min_le_left (M : ℚ) ((m : ℚ) + e * 2 / 3))
        linarith
      calc ⌊max (m : ℚ) (min M ((m : ℚ) + e * 2 / 3)) + 1 / 2⌋
            ≤ ⌊(M : ℚ) + 1 / 2⌋ := Int.floor_le_floor h2
        _ = M := by
            rw [Int.floor_eq_iff]
            constructor <;> linarith

/-- C8 (witness): the clamping bounds at min=14, max=60 and a very slow
cycle of 200 seconds. -/
theorem adaptive_poll_interval_witness :
    (14 : ℤ) ≤ nextTimeout ((14 : ℤ) : ℚ) ((60 : ℤ) : ℚ) 200
    ∧ nextTimeout ((14 : ℤ) : ℚ) ((60 : ℤ) : ℚ) 200 ≤ (60 : ℤ) :=
  adaptive_poll_interval.2.2.2.2 14 60 200 (by norm_num)

/-! ## Claim C9: busy flag prevents overlapping cycles -/

/-- C9.  If the busy flag `isGettingData` is set when the poll timer fires,
the cycle issues no status request and only rearms the timer with the
variant's fixed retry delay (HALO 19 s, LUNA 19 s, AURA 15 s), regardless
of anything else about the cycle. -/
theorem busy_flag_serializes_poll_cycles :
    ∀ (fails : Bool) (e : ℚ),
      caDataLoopStep 19 90 19 true fails e = [PollStep.schedule 19]
      ∧ PollStep.statusRequest ∉ caDataLoopStep 19 90 19 true fails e
      ∧ caDataLoopStep 19 60 19 true fails e = [PollStep.schedule 19]
      ∧ caDataLoopStep 14 60 15 true fails e = [PollStep.schedule 15] := by
  intro fails e
  refine ⟨rfl, ?_, rfl, rfl⟩
  simp [caDataLoopStep]

/-! ## Claim C10: port off skips the sessions request -/

/-- C10.  When the port's onoff capability is false at the start of the
charging-info stage, no charging-sessions request is issued for that port in
that cycle, on every variant: HALO and LUNA return early, and AURA writes
its default values and falls through to the next stage without the
request (regardless of its port-access setting). -/
theorem port_off_skips_sessions_request :
    ∀ (s : PortMeterState) (t : LunaState) (allowed : Bool) (rows : List SessionRow),
      (haloGetChargingInfo false s rows).2 = false
      ∧ (lunaGetChargingInfo false t rows).2 = false
      ∧ (auraGetChargingInfo false allowed s rows).2 = false := by
  intro s t allowed rows
  exact ⟨rfl, rfl, rfl⟩

end ChargeAmps
